import Mathlib

/-!
Shallow embedding of `daq_move_ChopperSR542.py`, the single source file of
the `pymodaq_plugins_stanford_research_systems` repository.

The plugin class `DAQ_Move_ChopperSR542` is an adapter between the PyMoDAQ
actuator framework (`DAQ_Move_base`) and the vendor driver `srsinst.sr542.SR542`.
Numeric values are modelled as exact rationals (`ℚ`); the Python `None` for the
controller handle is `Option`; Python exceptions are `Except` errors.

The framework base-class helpers (`check_bound`, `set_position_with_scaling`,
`get_position_with_scaling`, `set_position_relative_with_scaling`) and the
current-position cache refresh live in PyMoDAQ, outside this repository's
sources; they are modelled from the spec where marked.
-/

namespace ChopperSR542

/-- The SR542 configuration fields touched by the plugin
(`controller.config.*` in the source). -/
structure DeviceConfig where
  phase : ℚ
  source : String
  sync_edge : String
  internal_freq : ℚ
  control_target : String
  deriving Repr, DecidableEq

/-- The vendor driver object: its configuration, whether `operate.run()` has been
issued (`running`), and the result of `is_connected()`. -/
structure Device where
  config : DeviceConfig
  running : Bool
  connected : Bool
  deriving Repr, DecidableEq

/-- One observable action against the device or the settings tree, recorded in
the order the Python code performs it. -/
inductive Effect where
  | writeSource (v : String)
  | writeSyncEdge (v : String)
  | writeInternalFreq (v : ℚ)
  | writeControlTarget (v : String)
  | opRun
  | opStop
  | showField (name : String)
  | hideField (name : String)
  deriving Repr, DecidableEq

/-- Effects that touch the device (configuration writes and operate commands),
as opposed to pure UI visibility toggles. -/
def Effect.isDeviceWrite : Effect → Bool
  | .writeSource _ => true
  | .writeSyncEdge _ => true
  | .writeInternalFreq _ => true
  | .writeControlTarget _ => true
  | .opRun => true
  | .opStop => true
  | .showField _ => false
  | .hideField _ => false

/-- The plugin's settings tree: the eight parameters declared in `params`
(lines 34-44), with the visibility flags the `source` handler toggles. -/
structure Settings where
  com_port : String
  source : String
  edge : String
  internal_freq : ℚ
  n : ℤ
  m : ℤ
  control : String
  run : Bool
  edge_visible : Bool
  internal_freq_visible : Bool
  deriving Repr, DecidableEq

/-- A parameter-changed event: the parameter's name together with its (new)
value, as received by `commit_settings`. -/
inductive Param where
  | com_port (v : String)
  | source (v : String)
  | edge (v : String)
  | internal_freq (v : ℚ)
  | n (v : ℤ)
  | m (v : ℤ)
  | control (v : String)
  | run (v : Bool)
  deriving Repr, DecidableEq

/-- Result of a settings commit: the updated settings tree and device, plus the
trace of effects in execution order. -/
structure CommitResult where
  settings : Settings
  device : Device
  effects : List Effect
  deriving Repr, DecidableEq

/-- `DAQ_Move_ChopperSR542.commit_settings` (lines 66-99): dispatch on the
parameter name.  `source` writes `config.source` then shows/hides `edge` and
`internal_freq`; `edge`, `internal_freq` and `control` each write one
configuration field; `run` starts or stops operation; `com_port`, `n` and `m`
match no branch of the if/elif chain and do nothing. -/
def commit_settings (p : Param) (s : Settings) (d : Device) : CommitResult :=
  match p with
  | .source v =>
      let d := { d with config := { d.config with source := v } }
      let s := if v = "external"
        then { s with edge_visible := true }
        else { s with edge_visible := false }
      let s := if v = "internal"
        then { s with internal_freq_visible := true }
        else { s with internal_freq_visible := false }
      { settings := s, device := d,
        effects := [Effect.writeSource v,
          if v = "external" then Effect.showField "edge" else Effect.hideField "edge",
          if v = "internal" then Effect.showField "internal_freq"
            else Effect.hideField "internal_freq"] }
  | .edge v =>
      { settings := s,
        device := { d with config := { d.config with sync_edge := v } },
        effects := [Effect.writeSyncEdge v] }
  | .internal_freq v =>
      { settings := s,
        device := { d with config := { d.config with internal_freq := v } },
        effects := [Effect.writeInternalFreq v] }
  | .control v =>
      { settings := s,
        device := { d with config := { d.config with control_target := v } },
        effects := [Effect.writeControlTarget v] }
  | .run b =>
      if b then
        { settings := s, device := { d with running := true }, effects := [Effect.opRun] }
      else
        { settings := s, device := { d with running := false }, effects := [Effect.opStop] }
  | .com_port _ => { settings := s, device := d, effects := [] }
  | .n _ => { settings := s, device := d, effects := [] }
  | .m _ => { settings := s, device := d, effects := [] }

/-- The effect trace of a single dispatch, which depends only on the parameter. -/
def commit_effects : Param → List Effect
  | .source v =>
      [Effect.writeSource v,
        if v = "external" then Effect.showField "edge" else Effect.hideField "edge",
        if v = "internal" then Effect.showField "internal_freq"
          else Effect.hideField "internal_freq"]
  | .edge v => [Effect.writeSyncEdge v]
  | .internal_freq v => [Effect.writeInternalFreq v]
  | .control v => [Effect.writeControlTarget v]
  | .run b => if b then [Effect.opRun] else [Effect.opStop]
  | .com_port _ => []
  | .n _ => []
  | .m _ => []

theorem commit_settings_effects (p : Param) (s : Settings) (d : Device) :
    (commit_settings p s d).effects = commit_effects p := by
  cases p <;> simp [commit_settings, commit_effects]
  split <;> rfl

/-- Modelled from the spec: the host framework's user scaling options
("an affine mapping between user-facing units and device raw units",
"offset/scale configured externally").  These live in `DAQ_Move_base`,
outside this repository's sources. -/
structure ScalingOptions where
  use_scaling : Bool
  scaling : ℚ
  offset : ℚ
  deriving Repr, DecidableEq

/-- Modelled from the spec: the host framework's optional position bounds
("clamps target to configured bounds"), from `DAQ_Move_base`. -/
structure BoundsOptions where
  is_bounds : Bool
  bound_min : ℚ
  bound_max : ℚ
  deriving Repr, DecidableEq

/-- The externally-configured framework state a move consults. -/
structure FrameworkConfig where
  scaling : ScalingOptions
  bounds : BoundsOptions
  deriving Repr, DecidableEq

/-- Modelled from the spec: `DAQ_Move_base.check_bound` — "clamps target to
configured bounds" when the user enabled bounds, identity otherwise. -/
def check_bound (b : BoundsOptions) (x : ℚ) : ℚ :=
  if b.is_bounds then max b.bound_min (min b.bound_max x) else x

/-- Modelled from the spec: `DAQ_Move_base.set_position_with_scaling`, the
user-units → device-units direction of the affine scaling transform. -/
def set_position_with_scaling (c : ScalingOptions) (x : ℚ) : ℚ :=
  if c.use_scaling then x * c.scaling + c.offset else x

/-- Modelled from the spec: `DAQ_Move_base.get_position_with_scaling`, the
device-units → user-units inverse of the affine scaling transform. -/
def get_position_with_scaling (c : ScalingOptions) (x : ℚ) : ℚ :=
  if c.use_scaling then (x - c.offset) / c.scaling else x

/-- Modelled from the spec: `DAQ_Move_base.set_position_relative_with_scaling`,
the linear part of the transform applied to a relative displacement. -/
def set_position_relative_with_scaling (c : ScalingOptions) (x : ℚ) : ℚ :=
  if c.use_scaling then x * c.scaling else x

/-- The adapter state a move reads and writes: the connected device plus the
base class's `current_position` cache and `target_value`. -/
structure MoveState where
  device : Device
  current_position : ℚ
  target_value : ℚ
  deriving Repr, DecidableEq

/-- `DAQ_Move_ChopperSR542.get_actuator_value` (lines 51-60): read
`controller.config.phase` and convert it with the scaling transform. -/
def get_actuator_value (cfg : FrameworkConfig) (st : MoveState) : ℚ :=
  get_position_with_scaling cfg.scaling st.device.config.phase

/-- Modelled from the spec: the device position is "mirrored into the adapter's
current position cache after scaling" by the host framework's polling after a
move; the plugin code itself never assigns `current_position`. -/
def sync_position (cfg : FrameworkConfig) (st : MoveState) : MoveState :=
  { st with current_position := get_actuator_value cfg st }

/-- `DAQ_Move_ChopperSR542.move_abs` (lines 127-138): clamp the target, record
it as `target_value`, apply the scaling transform, and write the scaled value
to `controller.config.phase`. -/
def move_abs (cfg : FrameworkConfig) (st : MoveState) (value : ℚ) : MoveState :=
  let value1 := check_bound cfg.bounds value
  let value2 := set_position_with_scaling cfg.scaling value1
  { st with
    target_value := value1,
    device := { st.device with config := { st.device.config with phase := value2 } } }

/-- `DAQ_Move_ChopperSR542.move_rel` (lines 141-152): clamp
`current_position + value`, record the clamped absolute target as
`target_value`, compute the scaled relative displacement — which the next line
then ignores — and write the UNSCALED `target_value` to
`controller.config.phase`. -/
def move_rel (cfg : FrameworkConfig) (st : MoveState) (value : ℚ) : MoveState :=
  let value1 := check_bound cfg.bounds (st.current_position + value) - st.current_position
  let target := value1 + st.current_position
  let _value2 := set_position_relative_with_scaling cfg.scaling value1
  { st with
    target_value := target,
    device := { st.device with config := { st.device.config with phase := target } } }

/-- `DAQ_Move_ChopperSR542.stop_motion` (lines 158-162): issue
`controller.operate.stop()`, then set the `run` setting to `False`. -/
def stop_motion (s : Settings) (d : Device) : CommitResult :=
  { settings := { s with run := false },
    device := { d with running := false },
    effects := [Effect.opStop] }

/-- `DAQ_Move_ChopperSR542.ini_attributes` (lines 47-48): the controller handle
starts out as Python `None`. -/
def ini_attributes_controller : Option Device := none

/-- `DAQ_Move_ChopperSR542.close` (lines 62-64): unconditionally call
`self.controller.disconnect()`.  On the initial `None` handle this is a Python
`AttributeError`, modelled as an `Except.error`. -/
def close (controller : Option Device) : Except String Device :=
  match controller with
  | none => Except.error "AttributeError: NoneType object has no attribute disconnect"
  | some d => Except.ok { d with connected := false }

/-- The plugin-specific parameters of `self.settings.children()`, carrying the
current settings values, in the declaration order of the `params` table
(lines 34-44).  The common framework parameters appended by
`comon_parameters_fun` match no branch of `commit_settings` and are omitted. -/
def settings_params (s : Settings) : List Param :=
  [Param.com_port s.com_port, Param.source s.source, Param.edge s.edge,
    Param.internal_freq s.internal_freq, Param.n s.n, Param.m s.m,
    Param.control s.control, Param.run s.run]

/-- Dispatch a list of parameters through `commit_settings`, threading the
settings and device state and concatenating the effect traces (the `for` loop
of `ini_stage`, lines 122-123). -/
def apply_params : List Param → Settings → Device → CommitResult
  | [], s, d => { settings := s, device := d, effects := [] }
  | p :: rest, s, d =>
      let r := commit_settings p s d
      let r2 := apply_params rest r.settings r.device
      { settings := r2.settings, device := r2.device, effects := r.effects ++ r2.effects }

/-- What `ini_stage` returns on the non-raising path. -/
structure IniResult where
  info : String
  success : Bool
  settings : Settings
  device : Device
  effects : List Effect
  deriving Repr, DecidableEq

/-- `DAQ_Move_ChopperSR542.ini_stage` (lines 101-125, Master case): construct
`SR542('serial', com_port, '115200')` — whose outcome, connection established
or exception, is the `connect` argument — read `is_connected()` as the success
flag, dispatch every settings parameter through `commit_settings`, and return.
There is no `try/except`, so an exception from the connection layer
propagates. -/
def ini_stage (connect : Except String Device) (s : Settings) :
    Except String IniResult :=
  match connect with
  | Except.error e => Except.error e
  | Except.ok dev =>
      let inited := dev.connected
      let r := apply_params (settings_params s) s dev
      Except.ok { info := "Chopper initialized", success := inited,
                  settings := r.settings, device := r.device, effects := r.effects }

/-- `comports[0]` (line 35): the default value of the `com_port` parameter is
the first discovered port; building the params table raises `IndexError` when
the discovered port list is empty. -/
def params_table (comports : List String) : Except String (List Param) :=
  match comports with
  | [] => Except.error "IndexError: list index out of range"
  | p :: _ =>
      Except.ok [Param.com_port p, Param.source "internal", Param.edge "rise",
        Param.internal_freq 100, Param.n 1, Param.m 1,
        Param.control "outer", Param.run false]

/-! Concrete sample values used by witnesses and counterexamples. -/

/-- A settings tree holding the default values of the `params` table. -/
def sample_settings : Settings :=
  { com_port := "COM3", source := "internal", edge := "rise", internal_freq := 100,
    n := 1, m := 1, control := "outer", run := false,
    edge_visible := true, internal_freq_visible := true }

/-- A connected device in its initial configuration. -/
def sample_device : Device :=
  { config := { phase := 0, source := "internal", sync_edge := "rise",
                internal_freq := 100, control_target := "outer" },
    running := false, connected := true }

/-- The same device reporting `is_connected() = False`. -/
def sample_disconnected_device : Device :=
  { sample_device with connected := false }

/-- A framework configuration with an active scaling of 2 (offset 0) and no
bounds. -/
def scaling_cfg : FrameworkConfig :=
  { scaling := { use_scaling := true, scaling := 2, offset := 0 },
    bounds := { is_bounds := false, bound_min := 0, bound_max := 0 } }

/-- A framework configuration with no user scaling and bounds `[0, 10]`. -/
def plain_cfg : FrameworkConfig :=
  { scaling := { use_scaling := false, scaling := 1, offset := 0 },
    bounds := { is_bounds := true, bound_min := 0, bound_max := 10 } }

/-- A framework configuration with scaling 2, offset 3 and bounds `[0, 10]`. -/
def affine_cfg : FrameworkConfig :=
  { scaling := { use_scaling := true, scaling := 2, offset := 3 },
    bounds := { is_bounds := true, bound_min := 0, bound_max := 10 } }

/-- An adapter state at position 0. -/
def sample_move_state : MoveState :=
  { device := sample_device, current_position := 0, target_value := 0 }

/-- An adapter state at position 3. -/
def sample_move_state3 : MoveState :=
  { device := sample_device, current_position := 3, target_value := 0 }

/-! Claim theorems. -/

/-- C1: after `commit_settings` is applied to the `source` setting, the `edge`
field is visible iff the new source value is `external`, and the
`internal_freq` field is visible iff the new source value is `internal`; in
particular, for `vco` and `line` both fields are hidden.  Holds for every
settings state and device state, hence for every reachable one. -/
theorem source_sets_visibility (s : Settings) (d : Device) (v : String) :
    ((commit_settings (Param.source v) s d).settings.edge_visible ↔ v = "external") ∧
    ((commit_settings (Param.source v) s d).settings.internal_freq_visible ↔ v = "internal") := by
  simp only [commit_settings]
  constructor <;> split <;> split <;> simp_all

/-- C4 (counterexample): the claim says every recognized setting name —
`com_port` included — performs exactly one device-configuration write or
visibility toggle.  A `com_port` change matches no branch of the if/elif chain
and performs none at all: its effect trace is empty, so the count is 0, not 1. -/
theorem commit_com_port_no_effect :
    (commit_settings (Param.com_port "COM3") sample_settings sample_device).effects = [] ∧
    ((commit_settings (Param.com_port "COM3") sample_settings
        sample_device).effects.filter Effect.isDeviceWrite).length ≠ 1 :=
  ⟨rfl, by decide⟩

/-- C4 (amended): `commit_settings` is a pure dispatch.  Each of `source`,
`edge`, `internal_freq`, `control` and `run` performs exactly one device write
(`source → config.source`, `edge → config.sync_edge`,
`internal_freq → config.internal_freq`, `control → config.control_target`,
`run` true/false → `operate.run()`/`operate.stop()`), `source` additionally
toggling the visibility of `edge` and `internal_freq`; `com_port`, `n` and `m`
perform no effect at all.  The full effect trace is `commit_effects p`, so no
other device write happens in any case. -/
theorem commit_is_pure_dispatch (p : Param) (s : Settings) (d : Device) :
    (commit_settings p s d).effects = commit_effects p ∧
    ((commit_effects p).filter Effect.isDeviceWrite).length =
      (match p with
       | Param.com_port _ => 0
       | Param.n _ => 0
       | Param.m _ => 0
       | _ => 1) := by
  refine ⟨commit_settings_effects p s d, ?_⟩
  cases p with
  | com_port v => rfl
  | source v =>
      by_cases h1 : v = "external" <;> by_cases h2 : v = "internal" <;>
        simp [commit_effects, Effect.isDeviceWrite, h1, h2, List.filter]
  | edge v => rfl
  | internal_freq v => rfl
  | n v => rfl
  | m v => rfl
  | control v => rfl
  | run b => cases b <;> rfl

/-- C5: for every prior settings and device state, `stop_motion` issues exactly
one stop command to the device and leaves the `run` setting false. -/
theorem stop_motion_clears_run (s : Settings) (d : Device) :
    (stop_motion s d).effects = [Effect.opStop] ∧
    (stop_motion s d).settings.run = false ∧
    (stop_motion s d).device.running = false :=
  ⟨rfl, rfl, rfl⟩

/-- C9: calling `close` on the initial `None` controller handle set by
`ini_attributes` is not a silent no-op: it raises (an `AttributeError`)
because `controller.disconnect()` is invoked unconditionally. -/
theorem close_on_initial_handle_raises :
    close ini_attributes_controller =
      Except.error "AttributeError: NoneType object has no attribute disconnect" :=
  rfl

/-- C10: the params table needs a non-empty discovered port list: on an empty
list, indexing `comports[0]` fails with `IndexError` and the table cannot be
built; on a non-empty list the default `com_port` value is the first port. -/
theorem params_table_indexes_first_port (p : String) (l : List String) :
    params_table [] = Except.error "IndexError: list index out of range" ∧
    ∃ ps, params_table (p :: l) = Except.ok ps ∧
      ps.head? = some (Param.com_port p) :=
  ⟨rfl, _, rfl, rfl⟩

/-- The effect trace of `apply_params` is the concatenation, in list order, of
each parameter's own dispatch trace. -/
theorem apply_params_effects (ps : List Param) (s : Settings) (d : Device) :
    (apply_params ps s d).effects = (ps.map commit_effects).flatten := by
  induction ps generalizing s d with
  | nil => rfl
  | cons p rest ih => simp [apply_params, commit_settings_effects, ih]

/-- C2 (counterexample): the claim says a failed connection makes `ini_stage`
return `success = false` without raising.  `ini_stage` has no exception
handler, so when the connection layer raises (as opening an unreachable serial
port does), the exception propagates instead of a `success = false` return. -/
theorem ini_stage_propagates_connect_error :
    ini_stage (Except.error "SerialException: could not open port") sample_settings =
      Except.error "SerialException: could not open port" :=
  rfl

/-- C2 (amended): if the connection layer signals failure by handing back a
controller whose `is_connected()` is false rather than by raising, `ini_stage`
returns normally with `success = false`; an exception from the connection
layer propagates out of `ini_stage` unhandled. -/
theorem ini_stage_failure_reporting (s : Settings) (d : Device) (e : String)
    (h : d.connected = false) :
    (∃ r, ini_stage (Except.ok d) s = Except.ok r ∧ r.success = false) ∧
    ini_stage (Except.error e) s = Except.error e :=
  ⟨⟨_, rfl, h⟩, rfl⟩

/-- Witness for C2 (amended) at a concrete disconnected device. -/
theorem ini_stage_failure_reporting_witness :
    sample_disconnected_device.connected = false ∧
    ((∃ r, ini_stage (Except.ok sample_disconnected_device) sample_settings = Except.ok r ∧
        r.success = false) ∧
      ini_stage (Except.error "SerialException") sample_settings =
        Except.error "SerialException") :=
  ⟨rfl, ini_stage_failure_reporting sample_settings sample_disconnected_device
    "SerialException" rfl⟩

/-- C8: when `ini_stage` obtains a controller, it reports the success flag as
the device's own `is_connected()` result and dispatches every settings
parameter through `commit_settings`, in the order of the settings table (the
resulting effect trace is the concatenation of the per-parameter dispatch
traces in table order). -/
theorem ini_stage_applies_settings (d : Device) (s : Settings) :
    ∃ r, ini_stage (Except.ok d) s = Except.ok r ∧
      r.info = "Chopper initialized" ∧
      r.success = d.connected ∧
      r.effects = ((settings_params s).map commit_effects).flatten :=
  ⟨_, rfl, rfl, rfl, apply_params_effects (settings_params s) s d⟩

/-- C6: for a target within the configured bounds (the bounds check leaves it
unchanged) and a non-zero scale factor, `move_abs` followed by
`get_actuator_value` returns exactly the target: over exact rationals the
scaling round-trip (scale then inverse-scale) is the identity. -/
theorem move_abs_then_get (cfg : FrameworkConfig) (st : MoveState) (t : ℚ)
    (hs : cfg.scaling.scaling ≠ 0) (hb : check_bound cfg.bounds t = t) :
    get_actuator_value cfg (move_abs cfg st t) = t := by
  simp only [get_actuator_value, move_abs, hb, set_position_with_scaling,
    get_position_with_scaling]
  split
  · rw [add_sub_cancel_right, mul_div_cancel_right₀ t hs]
  · rfl

/-- Witness for C6 at scaling 2, offset 3, bounds `[0, 10]`, target 4. -/
theorem move_abs_then_get_witness :
    affine_cfg.scaling.scaling ≠ 0 ∧ check_bound affine_cfg.bounds 4 = 4 ∧
    get_actuator_value affine_cfg (move_abs affine_cfg sample_move_state 4) = 4 :=
  ⟨by decide, by decide,
    move_abs_then_get affine_cfg sample_move_state 4 (by decide) (by decide)⟩

/-- C3: with scaling 2 (offset 0), no bounds and current position 0,
`move_rel 1` writes 1 to `config.phase` — the unscaled clamped target — while
`move_abs` at the very target it computed, 1, writes the scaled value 2.  The
scaled relative displacement that `move_rel` computes is discarded, so the two
operations do not apply the same transform to the value written to the
device. -/
theorem move_rel_writes_unscaled_target :
    (move_rel scaling_cfg sample_move_state 1).target_value = 1 ∧
    (move_rel scaling_cfg sample_move_state 1).device.config.phase = 1 ∧
    (move_abs scaling_cfg sample_move_state 1).device.config.phase = 2 ∧
    (move_rel scaling_cfg sample_move_state 1).device.config.phase ≠
      (move_abs scaling_cfg sample_move_state 1).device.config.phase := by
  refine ⟨?_, ?_, ?_, ?_⟩ <;>
    norm_num [move_rel, move_abs, check_bound, set_position_with_scaling,
      set_position_relative_with_scaling, scaling_cfg, sample_move_state, sample_device]

/-- C7 (counterexample): with scaling 2 (offset 0), no bounds and current
position 0, two successive `move_rel 1` calls (the position cache refreshed
from the device between them, as the framework does) leave `config.phase` at
3/2, while `move_abs (0 + 2 * 1)` leaves it at 4: the resulting states
differ. -/
theorem move_rel_twice_ne_move_abs :
    (move_rel scaling_cfg (sync_position scaling_cfg
        (move_rel scaling_cfg sample_move_state 1)) 1).device.config.phase ≠
      (move_abs scaling_cfg sample_move_state
        (sample_move_state.current_position + 2 * 1)).device.config.phase := by
  norm_num [move_rel, move_abs, sync_position, get_actuator_value, check_bound,
    get_position_with_scaling, set_position_with_scaling,
    set_position_relative_with_scaling, scaling_cfg, sample_move_state, sample_device]

/-- C7 (amended): when no user scaling is active and the intermediate target
`current + delta` is not altered by the bounds check, two successive `move_rel
delta` calls — with the position cache refreshed after each move — leave the
adapter and device in exactly the state of a single
`move_abs (current + 2 * delta)` followed by the same refresh. -/
theorem move_rel_twice_eq_move_abs (cfg : FrameworkConfig) (st : MoveState) (d : ℚ)
    (hns : cfg.scaling.use_scaling = false)
    (hcl : check_bound cfg.bounds (st.current_position + d) = st.current_position + d) :
    sync_position cfg (move_rel cfg (sync_position cfg (move_rel cfg st d)) d) =
      sync_position cfg (move_abs cfg st (st.current_position + 2 * d)) := by
  have h2 : st.current_position + d + d = st.current_position + 2 * d := by ring
  simp [move_rel, move_abs, sync_position, get_actuator_value,
    get_position_with_scaling, set_position_with_scaling, hns, hcl, h2]
  congr 1
  ring

/-- Witness for C7 (amended) with no scaling, bounds `[0, 10]`, start 3, delta 2. -/
theorem move_rel_twice_eq_move_abs_witness :
    plain_cfg.scaling.use_scaling = false ∧
    check_bound plain_cfg.bounds (sample_move_state3.current_position + 2) =
      sample_move_state3.current_position + 2 ∧
    sync_position plain_cfg (move_rel plain_cfg (sync_position plain_cfg
        (move_rel plain_cfg sample_move_state3 2)) 2) =
      sync_position plain_cfg (move_abs plain_cfg sample_move_state3
        (sample_move_state3.current_position + 2 * 2)) :=
  ⟨rfl, by norm_num [check_bound, plain_cfg, sample_move_state3],
    move_rel_twice_eq_move_abs plain_cfg sample_move_state3 2 rfl
      (by norm_num [check_bound, plain_cfg, sample_move_state3])⟩

end ChopperSR542
